import Mathlib

/-!
Shallow embedding of the concurrent resource-coordination layer of the
express-graphql-demo backend: the lease-based edit lock
(src/utils/lockManager.js) and the capacity-bounded voucher allocator
(src/resolvers/voucher.js, src/routes/vouchers.js), over the Event and
Voucher documents (src/models/Event.js).

Modelling conventions:
- MongoDB documents live in association lists keyed by id strings; ids are
  treated as opaque store keys.  The implicit ObjectId casting that MongoDB
  performs on id filter values is modelled only where the source makes it
  observable: the explicit ObjectId construction applied to the caller id in
  releaseEditLock and maintainEditLock, and the explicit
  mongoose.Types.ObjectId.isValid guard in useVoucher.
- Timestamps are naturals (milliseconds); the Date value captured once as
  `now` in each operation is passed as an explicit parameter.
- A mongoose session transaction is modelled as a function from the store to
  either a committed store or an error; on error the original store is
  returned unchanged (withTransaction aborts, discarding session writes).
- Thrown JavaScript errors are Except.error values carrying the message.
- The random voucher-code generator is an explicit oracle parameter
  (attempt index to candidate code), and freshly created document ids are
  explicit parameters.
-/

namespace CoordCore

/-- EDIT_TIMEOUT_MS from src/utils/lockManager.js: 5 * 60 * 1000. -/
def EDIT_TIMEOUT_MS : Nat := 5 * 60 * 1000

/-- Governed resource document, from the Event schema in src/models/Event.js.
Fields irrelevant to the coordination layer (description, createdAt,
updatedAt) are omitted; they are never read or written by the modelled
operations. -/
structure Event where
  name : String
  maxQuantity : Nat
  issuedCount : Nat
  isActive : Bool
  editingBy : Option String
  editLockAt : Option Nat
deriving Repr, DecidableEq

/-- Issued token document (the Voucher model is referenced by the resolvers
and routes; its schema file is not part of the sources, so the fields are
those the source code reads and writes: eventId, code, issuedTo, isUsed,
updatedAt, plus createdAt). -/
structure Voucher where
  eventId : String
  code : String
  issuedTo : String
  isUsed : Bool
  createdAt : Nat
  updatedAt : Nat
deriving Repr, DecidableEq

/-- The shared store: the events and vouchers collections. -/
structure DB where
  events : List (String × Event)
  vouchers : List (String × Voucher)
deriving Repr, DecidableEq

/-- findById: first document with the given id. -/
def lookupBy {α : Type} : List (String × α) → String → Option α
  | [], _ => none
  | p :: rest, k => if p.1 = k then some p.2 else lookupBy rest k

/-- findOneAndUpdate commit: replace the first document with the given id. -/
def updateBy {α : Type} : List (String × α) → String → α → List (String × α)
  | [], _, _ => []
  | p :: rest, k, v => if p.1 = k then (k, v) :: rest else p :: updateBy rest k v

/-- True when some voucher document already carries the code (the unique
index on Voucher.code that makes Voucher.create raise E11000 on duplicates;
the index itself lives in the Voucher model file, absent from the sources,
and is modelled from the spec sentence that voucher codes are globally
unique). -/
def codeExists (db : DB) (c : String) : Bool :=
  db.vouchers.any (fun p => p.2.code = c)

/-- JavaScript truthiness of a nullable string field: null and the empty
string are falsy, every other string is truthy. -/
def jsTruthyStr : Option String → Bool
  | none => false
  | some s => decide (s ≠ "")

/-- JavaScript String(x) on a nullable string: String(null) is "null". -/
def jsString : Option String → String
  | none => "null"
  | some s => s

/-- Mongo filter { field: { $lt: now } } on a nullable Date field: a null
or missing date never matches. -/
def dateLt : Option Nat → Nat → Bool
  | some t, now => decide (t < now)
  | none, _ => false

/-- Mongo filter { field: { $gt: now } } on a nullable Date field, and the
JavaScript comparison lockedEvent.editLockAt > now under a truthiness guard. -/
def dateGt : Option Nat → Nat → Bool
  | some t, now => decide (now < t)
  | none, _ => false

/-- Hexadecimal character test, as in the ObjectId input validation. -/
def isHexChar (c : Char) : Bool :=
  c.isDigit || (decide (97 ≤ c.toNat) && decide (c.toNat ≤ 102))
    || (decide (65 ≤ c.toNat) && decide (c.toNat ≤ 70))

/-- A 24-character hexadecimal string, the canonical ObjectId text form. -/
def isHex24 (s : String) : Bool :=
  decide (s.length = 24) && s.data.all isHexChar

/-- mongoose.Types.ObjectId.isValid on a string: 24 hex characters or a
12-character string interpreted as raw bytes. -/
def isValidObjectId (s : String) : Bool :=
  isHex24 s || decide (s.length = 12)

def hexDigitChar (n : Nat) : Char :=
  if n < 10 then Char.ofNat (48 + n) else Char.ofNat (87 + n)

def hexEncodeChar (c : Char) : List Char :=
  [hexDigitChar (c.toNat / 16 % 16), hexDigitChar (c.toNat % 16)]

def strToLower (s : String) : String :=
  String.mk (s.data.map Char.toLower)

/-- new mongoose.Types.ObjectId(userId) followed by serialization back to a
string (the value mongoose compares against the String-typed editingBy
path).  The constructor throws a BSONError unless the input is a
24-character hex string (serialized lowercased) or a 12-character string
(serialized as the hex encoding of its bytes); none models the throw. -/
def objectIdOfString (s : String) : Option String :=
  if isHex24 s then some (strToLower s)
  else if s.length = 12 then some (String.mk ((s.data.map hexEncodeChar).flatten))
  else none

/-- Message of the BSONError thrown by the ObjectId constructor. -/
def bsonErrMsg : String :=
  "BSONError: input must be a 24 character hex string, 12 byte Uint8Array, or an integer"

/-- Result record returned by the three lock operations:
{ code, message, eventId, lockUntil } (the optional event payload is
determined by the store component of the result and is not repeated). -/
structure LockResult where
  code : Nat
  message : String
  eventId : String
  lockUntil : Option Nat
deriving Repr, DecidableEq

/-- Filter of the conditional update in requestEditLock:
editingBy is null, or editLockAt < now. -/
def acquireMatches (e : Event) (now : Nat) : Bool :=
  e.editingBy.isNone || dateLt e.editLockAt now

/-- Diagnostic re-read check in requestEditLock:
lockedEvent?.editingBy && lockedEvent?.editLockAt && lockedEvent.editLockAt > now. -/
def lockedNow (e : Event) (now : Nat) : Bool :=
  jsTruthyStr e.editingBy && e.editLockAt.isSome && dateGt e.editLockAt now

/-- requestEditLock from src/utils/lockManager.js: one conditional update
acquiring the lock when it is free or expired, otherwise a diagnostic
re-read distinguishing self-held (200), held-by-other (409) and the
fall-through 404. -/
def requestEditLock (db : DB) (eventId userId : String) (now : Nat) :
    LockResult × DB :=
  match lookupBy db.events eventId with
  | some e =>
    if acquireMatches e now then
      let locked := { e with editingBy := some userId,
                             editLockAt := some (now + EDIT_TIMEOUT_MS) }
      (⟨200, "Edit lock acquired", eventId, some (now + EDIT_TIMEOUT_MS)⟩,
       { db with events := updateBy db.events eventId locked })
    else if lockedNow e now then
      if jsString e.editingBy = userId then
        (⟨200, "Already editing", eventId, e.editLockAt⟩, db)
      else
        (⟨409, "Event is being edited by another user", eventId, e.editLockAt⟩, db)
    else
      (⟨404, "Event not found", eventId, none⟩, db)
  | none => (⟨404, "Event not found", eventId, none⟩, db)

/-- releaseEditLock from src/utils/lockManager.js: the caller id is first
forced through the ObjectId constructor (throwing on invalid input), then a
conditional update clears the lock when editingBy equals the cast id;
otherwise 404 when the event is absent, else 403. -/
def releaseEditLock (db : DB) (eventId userId : String) :
    Except String (LockResult × DB) :=
  match objectIdOfString userId with
  | none => .error bsonErrMsg
  | some oid =>
    match lookupBy db.events eventId with
    | some e =>
      if e.editingBy = some oid then
        let cleared := { e with editingBy := none, editLockAt := none }
        .ok (⟨200, "Edit lock released", eventId, none⟩,
          { db with events := updateBy db.events eventId cleared })
      else
        .ok (⟨403, "You are not the editing user", eventId, e.editLockAt⟩, db)
    | none => .ok (⟨404, "Event not found", eventId, none⟩, db)

/-- maintainEditLock from src/utils/lockManager.js: the caller id is forced
through the ObjectId constructor (throwing on invalid input), then a
conditional update refreshes editLockAt when the caller is the holder and
the lease is unexpired; otherwise 404 when absent, 403 when held by a
different id, 409 when self-held but expired. -/
def maintainEditLock (db : DB) (eventId userId : String) (now : Nat) :
    Except String (LockResult × DB) :=
  match objectIdOfString userId with
  | none => .error bsonErrMsg
  | some oid =>
    match lookupBy db.events eventId with
    | some e =>
      if e.editingBy = some oid ∧ dateGt e.editLockAt now = true then
        let refreshed := { e with editLockAt := some (now + EDIT_TIMEOUT_MS) }
        .ok (⟨200, "Edit lock extended", eventId, some (now + EDIT_TIMEOUT_MS)⟩,
          { db with events := updateBy db.events eventId refreshed })
      else if jsString e.editingBy ≠ userId then
        .ok (⟨403, "You are not the editing user", eventId, e.editLockAt⟩, db)
      else
        .ok (⟨409, "Edit lock expired", eventId, e.editLockAt⟩, db)
    | none => .ok (⟨404, "Event not found", eventId, none⟩, db)

/-- An event as freshly created under the schema defaults of
src/models/Event.js: issuedCount 0, isActive true, lock fields null
(maxQuantity is required with min 1). -/
def newEvent (name : String) (maxQuantity : Nat) : Event :=
  { name := name, maxQuantity := maxQuantity, issuedCount := 0,
    isActive := true, editingBy := none, editLockAt := none }

/-- A voucher document as built by new Voucher({ eventId, code, issuedTo,
isUsed: false }) at creation time now. -/
def mkVoucher (eventId code issuedTo : String) (now : Nat) : Voucher :=
  { eventId := eventId, code := code, issuedTo := issuedTo, isUsed := false,
    createdAt := now, updatedAt := now }

/-- The bounded retry loop of issueVoucherToUser: up to 3 candidate codes
are drawn from the generator; Voucher.create raises a duplicate-key error
exactly when the candidate collides with an existing code, in which case the
next candidate is tried; none models exhausting all 3 attempts. -/
def genAttempts (db : DB) (gen : Nat → String) : Option String :=
  if codeExists db (gen 0) = false then some (gen 0)
  else if codeExists db (gen 1) = false then some (gen 1)
  else if codeExists db (gen 2) = false then some (gen 2)
  else none

/-- Body of the session.withTransaction callback in the issueVoucherToUser
resolver (src/resolvers/voucher.js): conditionally increment issuedCount
under the filter isActive not false and issuedCount < maxQuantity, then
create the voucher with a collision-retried code; any error aborts. -/
def issueTxn (db : DB) (eventId issuedTo : String) (gen : Nat → String)
    (newId : String) (now : Nat) : Except String (Voucher × DB) :=
  match lookupBy db.events eventId with
  | some e =>
    if e.isActive = true ∧ e.issuedCount < e.maxQuantity then
      let bumped := { e with issuedCount := e.issuedCount + 1 }
      let db1 := { db with events := updateBy db.events eventId bumped }
      match genAttempts db1 gen with
      | some c =>
        let v := mkVoucher eventId c issuedTo now
        .ok (v, { db1 with vouchers := db1.vouchers ++ [(newId, v)] })
      | none => .error "Failed to generate unique voucher code"
    else .error "Event not found or no more voucher slots available"
  | none => .error "Event not found or no more voucher slots available"

/-- issueVoucherToUser from src/resolvers/voucher.js: the transaction body
runs under session.withTransaction, which commits its writes on success and
aborts them on a thrown error; the resolver rewraps errors with the
"Voucher issuance failed: " prefix. -/
def issueVoucherToUser (db : DB) (eventId issuedTo : String)
    (gen : Nat → String) (newId : String) (now : Nat) :
    Except String Voucher × DB :=
  match issueTxn db eventId issuedTo gen newId now with
  | .ok (v, db1) => (.ok v, db1)
  | .error m => (.error (String.append "Voucher issuance failed: " m), db)

/-- Outcome of the POST /api/vouchers/issue route handler. -/
inductive RouteIssue where
  | created (v : Voucher)
  | failed (status : Nat) (errCode : String)
deriving Repr, DecidableEq

/-- POST /api/vouchers/issue from src/routes/vouchers.js: inside one
transaction, read the event (404-style EVENT_NOT_FOUND when absent), check
issuedCount against maxQuantity (EVENT_FULL), save the voucher (a
duplicate-code save raises and is reported as VOUCHER_ISSUANCE_FAILED), then
unconditionally increment issuedCount; the transaction is aborted on any
thrown error, committed otherwise. -/
def issueVoucherRoute (db : DB) (eventId issuedTo voucherCode newId : String)
    (now : Nat) : RouteIssue × DB :=
  match lookupBy db.events eventId with
  | none => (.failed 400 "EVENT_NOT_FOUND", db)
  | some e =>
    if e.maxQuantity ≤ e.issuedCount then (.failed 400 "EVENT_FULL", db)
    else if codeExists db voucherCode then
      (.failed 400 "VOUCHER_ISSUANCE_FAILED", db)
    else
      let v := mkVoucher eventId voucherCode issuedTo now
      let bumped := { e with issuedCount := e.issuedCount + 1 }
      let db1 := { db with vouchers := db.vouchers ++ [(newId, v)] }
      (.created v, { db1 with events := updateBy db1.events eventId bumped })

/-- useVoucher from src/resolvers/voucher.js: reject malformed ids, 
then read the voucher; absent gives a not-found error, an already used
voucher gives an already-been-used error with no write, otherwise set
isUsed and updatedAt. -/
def useVoucher (db : DB) (id : String) (now : Nat) :
    Except String Voucher × DB :=
  if isValidObjectId id = false then (.error "Invalid voucher ID", db)
  else
    match lookupBy db.vouchers id with
    | none => (.error "Voucher usage failed: Voucher not found", db)
    | some v =>
      if v.isUsed = true then
        (.error "Voucher usage failed: Voucher has already been used", db)
      else
        let used := { v with isUsed := true, updatedAt := now }
        (.ok used, { db with vouchers := updateBy db.vouchers id used })

/-- Outcome of the POST /api/vouchers/:id/use route handler. -/
inductive RouteUse where
  | used (v : Voucher)
  | failed (status : Nat) (errCode : String)
deriving Repr, DecidableEq

/-- POST /api/vouchers/:id/use from src/routes/vouchers.js: the same
conditional logic as the useVoucher resolver, surfaced as HTTP statuses
400 INVALID_VOUCHER_ID, 404 VOUCHER_NOT_FOUND, 400 VOUCHER_ALREADY_USED,
or the updated voucher. -/
def useVoucherRoute (db : DB) (id : String) (now : Nat) : RouteUse × DB :=
  if isValidObjectId id = false then (.failed 400 "INVALID_VOUCHER_ID", db)
  else
    match lookupBy db.vouchers id with
    | none => (.failed 404 "VOUCHER_NOT_FOUND", db)
    | some v =>
      if v.isUsed = true then (.failed 400 "VOUCHER_ALREADY_USED", db)
      else
        let used := { v with isUsed := true, updatedAt := now }
        (.used used, { db with vouchers := updateBy db.vouchers id used })

/-- Capacity invariant of a single event document. -/
def EventInv (e : Event) : Prop := e.issuedCount ≤ e.maxQuantity

/-- Capacity invariant over the whole events collection. -/
def DBInv (db : DB) : Prop := ∀ p ∈ db.events, EventInv p.2

/-- One issuance request, through either interface (the interleaving of
concurrent requests is a sequence of these atomic transactions, per the
per-document linearizability the store provides). -/
inductive IssueCall where
  | gql (eventId issuedTo : String) (gen : Nat → String) (newId : String) (now : Nat)
  | rest (eventId issuedTo voucherCode newId : String) (now : Nat)

/-- Store effect of one issuance request. -/
def applyIssue (db : DB) : IssueCall → DB
  | .gql eventId issuedTo gen newId now =>
    (issueVoucherToUser db eventId issuedTo gen newId now).2
  | .rest eventId issuedTo voucherCode newId now =>
    (issueVoucherRoute db eventId issuedTo voucherCode newId now).2

/-- Store effect of a finite schedule of issuance requests. -/
def applyIssues (db : DB) (cs : List IssueCall) : DB :=
  cs.foldl applyIssue db

-- Equality on results of the fallible operations is decidable, so that
-- concrete runs can be checked by evaluation.
deriving instance DecidableEq for Except

instance (e : Event) : Decidable (EventInv e) :=
  inferInstanceAs (Decidable (e.issuedCount ≤ e.maxQuantity))

instance (db : DB) : Decidable (DBInv db) :=
  inferInstanceAs (Decidable (∀ p ∈ db.events, EventInv p.2))

/-- Concrete caller and event ids in canonical ObjectId text form, and
demonstration stores, used by the concrete runs below. -/
def aliceHex : String := "aaaaaaaaaaaaaaaaaaaaaaaa"

def bobHex : String := "bbbbbbbbbbbbbbbbbbbbbbbb"

def demoEvt : String := "eeeeeeeeeeeeeeeeeeeeeeee"

/-- A store with a single fresh event. -/
def demoLockDB : DB := { events := [(demoEvt, newEvent "Conf" 10)], vouchers := [] }

/-- A store whose only event is at capacity. -/
def fullDB : DB :=
  { events := [(demoEvt, { name := "Gala", maxQuantity := 1, issuedCount := 1,
                           isActive := true, editingBy := none, editLockAt := none })],
    vouchers := [] }

/-- A store whose only event is held by another user with a lease expiring
exactly at time 1000. -/
def tieDB : DB :=
  { events := [(demoEvt, { name := "Conf", maxQuantity := 10, issuedCount := 0,
                           isActive := true, editingBy := some bobHex,
                           editLockAt := some 1000 })],
    vouchers := [] }

theorem lookupBy_updateBy_self {α : Type} {l : List (String × α)} {k : String}
    (v : α) {w : α} (h : lookupBy l k = some w) :
    lookupBy (updateBy l k v) k = some v := by
  induction l with
  | nil => simp [lookupBy] at h
  | cons p rest ih =>
    by_cases hk : p.1 = k
    · simp [lookupBy, updateBy, hk]
    · simp only [lookupBy, updateBy, if_neg hk] at h ⊢
      exact ih h

theorem DBInv_updateBy {l : List (String × Event)} {k : String} {e : Event}
    (h : ∀ p ∈ l, EventInv p.2) (he : EventInv e) :
    ∀ p ∈ updateBy l k e, EventInv p.2 := by
  induction l with
  | nil => simp [updateBy]
  | cons p rest ih =>
    intro q hq
    by_cases hk : p.1 = k
    · simp only [updateBy, if_pos hk] at hq
      rcases List.mem_cons.mp hq with hq | hq
      · subst hq; exact he
      · exact h q (List.mem_cons_of_mem _ hq)
    · simp only [updateBy, if_neg hk] at hq
      rcases List.mem_cons.mp hq with hq | hq
      · subst hq; exact h q (List.mem_cons_self _ _)
      · exact ih (fun r hr => h r (List.mem_cons_of_mem _ hr)) q hq

theorem issueTxn_ok_events {db : DB} {eventId issuedTo : String}
    {gen : Nat → String} {newId : String} {now : Nat} {v : Voucher} {db1 : DB}
    (hok : issueTxn db eventId issuedTo gen newId now = .ok (v, db1)) :
    ∃ e, lookupBy db.events eventId = some e ∧ e.issuedCount < e.maxQuantity ∧
      db1.events = updateBy db.events eventId { e with issuedCount := e.issuedCount + 1 } := by
  unfold issueTxn at hok
  split at hok
  next e heq =>
    split at hok
    next hg =>
      simp only [] at hok
      split at hok
      next c hc =>
        refine ⟨e, heq, hg.2, ?_⟩
        cases hok
        rfl
      next => exact absurd hok (by simp)
    next => exact absurd hok (by simp)
  next => exact absurd hok (by simp)

theorem applyIssue_inv {db : DB} (c : IssueCall) (h : DBInv db) :
    DBInv (applyIssue db c) := by
  cases c with
  | gql eventId issuedTo gen newId now =>
    simp only [applyIssue]
    unfold issueVoucherToUser
    split
    next v db1 hok =>
      obtain ⟨e, hl, hlt, hev⟩ := issueTxn_ok_events hok
      intro p hp
      rw [show (Except.ok v, db1).2 = db1 from rfl, hev] at hp
      refine DBInv_updateBy h ?_ p hp
      exact Nat.succ_le_of_lt hlt
    next m herr => exact h
  | rest eventId issuedTo voucherCode newId now =>
    simp only [applyIssue]
    unfold issueVoucherRoute
    split
    next heq => exact h
    next e heq =>
      split
      next hfull => exact h
      next hfull =>
        split
        next hcode => exact h
        next hcode =>
          intro p hp
          simp only [] at hp
          refine DBInv_updateBy h ?_ p hp
          exact Nat.succ_le_of_lt (Nat.lt_of_not_le hfull)

theorem applyIssues_inv (cs : List IssueCall) (db : DB) (h : DBInv db) :
    DBInv (applyIssues db cs) := by
  induction cs generalizing db with
  | nil => exact h
  | cons c rest ih => exact ih _ (applyIssue_inv c h)

theorem issueVoucherToUser_ok (db : DB) (eventId issuedTo : String)
    (gen : Nat → String) (newId : String) (now : Nat) (e : Event)
    (hl : lookupBy db.events eventId = some e)
    (ha : e.isActive = true) (hlt : e.issuedCount < e.maxQuantity)
    (hfresh : codeExists db (gen 0) = false) :
    issueVoucherToUser db eventId issuedTo gen newId now =
      (.ok (mkVoucher eventId (gen 0) issuedTo now),
       { events := updateBy db.events eventId { e with issuedCount := e.issuedCount + 1 },
         vouchers := db.vouchers ++ [(newId, mkVoucher eventId (gen 0) issuedTo now)] }) := by
  unfold issueVoucherToUser issueTxn
  rw [hl]
  simp only []
  rw [if_pos ⟨ha, hlt⟩]
  have hg : genAttempts { events := updateBy db.events eventId { e with issuedCount := e.issuedCount + 1 }, vouchers := db.vouchers } gen = some (gen 0) := by
    unfold genAttempts
    simp only [codeExists] at hfresh ⊢
    simp [hfresh]
  rw [hg]

theorem issueVoucherToUser_unavailable (db : DB) (eventId issuedTo : String)
    (gen : Nat → String) (newId : String) (now : Nat)
    (h : lookupBy db.events eventId = none ∨
      ∃ e, lookupBy db.events eventId = some e ∧
        (e.isActive = false ∨ e.maxQuantity ≤ e.issuedCount)) :
    issueVoucherToUser db eventId issuedTo gen newId now =
      (.error "Voucher issuance failed: Event not found or no more voucher slots available", db) := by
  unfold issueVoucherToUser issueTxn
  rcases h with h | ⟨e, hl, hbad⟩
  · rw [h]; rfl
  · have hng : ¬(e.isActive = true ∧ e.issuedCount < e.maxQuantity) := by
      rintro ⟨h1, h2⟩
      rcases hbad with hb | hb
      · rw [hb] at h1; exact Bool.false_ne_true h1
      · omega
    rw [hl]
    simp only []
    rw [if_neg hng]
    rfl

/-- C1: for every event the capacity invariant issuedCount less-or-equal
maxQuantity holds initially (issuedCount defaults to 0, maxQuantity is at
least 1) and is preserved by every Issue operation; moreover the resolver
increments issuedCount only under the predicate issuedCount < maxQuantity,
so no sequence of Issue operations drives issuedCount above maxQuantity. -/
theorem issuedCount_le_maxQuantity :
    (∀ name maxQ, 1 ≤ maxQ → EventInv (newEvent name maxQ))
    ∧ (∀ db cs, DBInv db → DBInv (applyIssues db cs))
    ∧ (∀ db eventId issuedTo gen newId now e,
        lookupBy db.events eventId = some e →
        lookupBy (issueVoucherToUser db eventId issuedTo gen newId now).2.events eventId
            = some e
        ∨ (e.issuedCount < e.maxQuantity ∧
            lookupBy (issueVoucherToUser db eventId issuedTo gen newId now).2.events eventId
              = some { e with issuedCount := e.issuedCount + 1 })) := by
  refine ⟨?_, ?_, ?_⟩
  · intro name maxQ _hq
    exact Nat.zero_le _
  · intro db cs h
    exact applyIssues_inv cs db h
  · intro db eventId issuedTo gen newId now e hl
    unfold issueVoucherToUser
    split
    next v db1 hok =>
      obtain ⟨e2, hl2, hlt2, hev⟩ := issueTxn_ok_events hok
      rw [hl] at hl2
      injection hl2 with he2
      subst he2
      refine Or.inr ⟨hlt2, ?_⟩
      rw [show (Except.ok v, db1).2 = db1 from rfl, hev]
      exact lookupBy_updateBy_self _ hl
    next m herr => exact Or.inl hl

/-- Witness for C1 at a concrete store. -/
theorem issuedCount_le_maxQuantity_witness :
    EventInv (newEvent "Workshop" 2) ∧
    DBInv (applyIssues
      { events := [("eeeeeeeeeeeeeeeeeeeeeeee", newEvent "Workshop" 2)], vouchers := [] }
      [IssueCall.gql "eeeeeeeeeeeeeeeeeeeeeeee" "ann@example.com" (fun _ => "VOUCHER-1") "v1" 5,
       IssueCall.rest "eeeeeeeeeeeeeeeeeeeeeeee" "bob@example.com" "VOUCHER-2" "v2" 6]) :=
  ⟨issuedCount_le_maxQuantity.1 "Workshop" 2 (by decide),
   issuedCount_le_maxQuantity.2.1 _ _ (by decide)⟩

/-- C2: when the three code-generation attempts all collide with existing
voucher codes, the whole transaction aborts: the store after the failed
operation equals the store before it, so issuedCount is unchanged and no
voucher record from the operation exists. -/
theorem issue_rollback_on_code_exhaustion :
    ∀ db eventId issuedTo gen newId now e,
      lookupBy db.events eventId = some e →
      e.isActive = true → e.issuedCount < e.maxQuantity →
      codeExists db (gen 0) = true → codeExists db (gen 1) = true →
      codeExists db (gen 2) = true →
      issueVoucherToUser db eventId issuedTo gen newId now
        = (.error "Voucher issuance failed: Failed to generate unique voucher code", db) := by
  intro db eventId issuedTo gen newId now e hl ha hlt h0 h1 h2
  unfold issueVoucherToUser issueTxn
  rw [hl]
  simp only []
  rw [if_pos ⟨ha, hlt⟩]
  have hg : genAttempts { events := updateBy db.events eventId { e with issuedCount := e.issuedCount + 1 }, vouchers := db.vouchers } gen = none := by
    unfold genAttempts
    simp only [codeExists] at h0 h1 h2 ⊢
    simp [h0, h1, h2]
  rw [hg]
  rfl

/-- Witness for C2 at a concrete store. -/
theorem issue_rollback_witness :
    issueVoucherToUser
      { events := [("eeeeeeeeeeeeeeeeeeeeeeee", newEvent "Workshop" 5)],
        vouchers := [("v0", mkVoucher "eeeeeeeeeeeeeeeeeeeeeeee" "VOUCHER-X" "ann@example.com" 1)] }
      "eeeeeeeeeeeeeeeeeeeeeeee" "bob@example.com" (fun _ => "VOUCHER-X") "v1" 7
      = (.error "Voucher issuance failed: Failed to generate unique voucher code",
         { events := [("eeeeeeeeeeeeeeeeeeeeeeee", newEvent "Workshop" 5)],
           vouchers := [("v0", mkVoucher "eeeeeeeeeeeeeeeeeeeeeeee" "VOUCHER-X" "ann@example.com" 1)] }) :=
  issue_rollback_on_code_exhaustion _ _ _ _ _ _ _ rfl rfl (by decide)
    (by decide) (by decide) (by decide)

/-- C3: on an active event with capacity 1 and issuedCount 0, of two Issue
calls linearized in either order exactly the first returns a voucher and the
second returns the capacity failure, and the final issuedCount is 1; in
general (second conjunct) no schedule of concurrent issuance requests drives
issuedCount above maxQuantity. -/
theorem concurrent_issue_exactly_one :
    (∀ db eventId e issuedTo1 issuedTo2 gen1 gen2 id1 id2 t1 t2,
      lookupBy db.events eventId = some e →
      e.isActive = true → e.maxQuantity = 1 → e.issuedCount = 0 →
      codeExists db (gen1 0) = false →
      (∃ v, (issueVoucherToUser db eventId issuedTo1 gen1 id1 t1).1 = .ok v) ∧
      (issueVoucherToUser (issueVoucherToUser db eventId issuedTo1 gen1 id1 t1).2
          eventId issuedTo2 gen2 id2 t2).1
        = .error "Voucher issuance failed: Event not found or no more voucher slots available" ∧
      lookupBy (issueVoucherToUser (issueVoucherToUser db eventId issuedTo1 gen1 id1 t1).2
          eventId issuedTo2 gen2 id2 t2).2.events eventId
        = some { e with issuedCount := 1 })
    ∧ (∀ db cs, DBInv db → DBInv (applyIssues db cs)) := by
  constructor
  · intro db eventId e issuedTo1 issuedTo2 gen1 gen2 id1 id2 t1 t2 hl ha hm hc hfresh
    have hlt : e.issuedCount < e.maxQuantity := by omega
    have hstep1 := issueVoucherToUser_ok db eventId issuedTo1 gen1 id1 t1 e hl ha hlt hfresh
    have hbump : { e with issuedCount := e.issuedCount + 1 } = { e with issuedCount := 1 } := by
      rw [hc]
    rw [hbump] at hstep1
    have hl2 : lookupBy (issueVoucherToUser db eventId issuedTo1 gen1 id1 t1).2.events eventId
        = some { e with issuedCount := 1 } := by
      rw [hstep1]
      exact lookupBy_updateBy_self _ hl
    have hfull : ({ e with issuedCount := 1 } : Event).maxQuantity
        ≤ ({ e with issuedCount := 1 } : Event).issuedCount := by
      simp [hm]
    have hstep2 := issueVoucherToUser_unavailable
      (issueVoucherToUser db eventId issuedTo1 gen1 id1 t1).2 eventId issuedTo2 gen2 id2 t2
      (Or.inr ⟨_, hl2, Or.inr hfull⟩)
    refine ⟨⟨mkVoucher eventId (gen1 0) issuedTo1 t1, ?_⟩, ?_, ?_⟩
    · rw [hstep1]
    · rw [hstep2]
    · rw [hstep2]
      exact hl2
  · intro db cs h
    exact applyIssues_inv cs db h

/-- Witness for C3 at a concrete store. -/
theorem concurrent_issue_witness :
    (∃ v, (issueVoucherToUser
        { events := [("eeeeeeeeeeeeeeeeeeeeeeee", newEvent "Flash" 1)], vouchers := [] }
        "eeeeeeeeeeeeeeeeeeeeeeee" "ann@example.com" (fun _ => "VOUCHER-A") "v1" 3).1 = .ok v) ∧
    (issueVoucherToUser (issueVoucherToUser
        { events := [("eeeeeeeeeeeeeeeeeeeeeeee", newEvent "Flash" 1)], vouchers := [] }
        "eeeeeeeeeeeeeeeeeeeeeeee" "ann@example.com" (fun _ => "VOUCHER-A") "v1" 3).2
        "eeeeeeeeeeeeeeeeeeeeeeee" "bob@example.com" (fun _ => "VOUCHER-B") "v2" 4).1
      = .error "Voucher issuance failed: Event not found or no more voucher slots available" ∧
    lookupBy (issueVoucherToUser (issueVoucherToUser
        { events := [("eeeeeeeeeeeeeeeeeeeeeeee", newEvent "Flash" 1)], vouchers := [] }
        "eeeeeeeeeeeeeeeeeeeeeeee" "ann@example.com" (fun _ => "VOUCHER-A") "v1" 3).2
        "eeeeeeeeeeeeeeeeeeeeeeee" "bob@example.com" (fun _ => "VOUCHER-B") "v2" 4).2.events
        "eeeeeeeeeeeeeeeeeeeeeeee"
      = some { newEvent "Flash" 1 with issuedCount := 1 } :=
  concurrent_issue_exactly_one.1 _ _ _ _ _ _ _ _ _ _ _ rfl rfl rfl rfl (by decide)

theorem requestEditLock_acquires (db : DB) (eventId h : String) (now : Nat) (e : Event)
    (hl : lookupBy db.events eventId = some e)
    (hfree : e.editingBy = none ∨ ∃ t, e.editLockAt = some t ∧ t < now) :
    requestEditLock db eventId h now
      = (⟨200, "Edit lock acquired", eventId, some (now + EDIT_TIMEOUT_MS)⟩,
         { db with events := updateBy db.events eventId
                               { e with editingBy := some h,
                                        editLockAt := some (now + EDIT_TIMEOUT_MS) } }) := by
  have ha : acquireMatches e now = true := by
    rcases hfree with hf | ⟨t, ht, hlt⟩
    · simp [acquireMatches, hf]
    · simp [acquireMatches, dateLt, ht, hlt]
  unfold requestEditLock
  rw [hl]
  simp only []
  rw [ha]
  simp

/-- C4: an Acquire by the current valid holder returns code 200 with the
message Already editing and the previous expiry, and leaves the store (in
particular editingBy and editLockAt) unchanged. A holder is recorded as a
nonempty string: the source treats an empty editingBy as no lock at all
(truthiness in isEventLocked and in the diagnostic re-read). -/
theorem acquire_self_reentrant :
    ∀ db eventId h now e t,
      lookupBy db.events eventId = some e →
      e.editingBy = some h → h ≠ "" →
      e.editLockAt = some t → now < t →
      requestEditLock db eventId h now
        = (⟨200, "Already editing", eventId, some t⟩, db) := by
  intro db eventId h now e t hl he hne ht hlt
  have ha : acquireMatches e now = false := by
    simp [acquireMatches, he, ht, dateLt]
    omega
  have hlock : lockedNow e now = true := by
    simp [lockedNow, jsTruthyStr, dateGt, he, ht, hne, hlt]
  unfold requestEditLock
  rw [hl]
  simp only []
  rw [ha, hlock]
  simp [jsString, he, ht]

/-- Witness for C4 at a concrete store. -/
theorem acquire_self_reentrant_witness :
    requestEditLock
      { events := [("eeeeeeeeeeeeeeeeeeeeeeee",
          { newEvent "Conf" 10 with editingBy := some "aaaaaaaaaaaaaaaaaaaaaaaa",
                                    editLockAt := some 300000 })], vouchers := [] }
      "eeeeeeeeeeeeeeeeeeeeeeee" "aaaaaaaaaaaaaaaaaaaaaaaa" 100000
      = (⟨200, "Already editing", "eeeeeeeeeeeeeeeeeeeeeeee", some 300000⟩,
         { events := [("eeeeeeeeeeeeeeeeeeeeeeee",
             { newEvent "Conf" 10 with editingBy := some "aaaaaaaaaaaaaaaaaaaaaaaa",
                                       editLockAt := some 300000 })], vouchers := [] }) :=
  acquire_self_reentrant _ _ _ _ _ _ rfl rfl (by decide) rfl (by decide)

/-- C5: for an existing event whose lock is empty or strictly expired,
Acquire succeeds for any caller, setting editingBy to the caller and
editLockAt to now + EDIT_TIMEOUT_MS (5 minutes); consequently a lease
acquired at time t and never extended is acquirable by any caller at any
time strictly after t + EDIT_TIMEOUT_MS. -/
theorem acquire_free_or_expired :
    (∀ db eventId h now e,
      lookupBy db.events eventId = some e →
      (e.editingBy = none ∨ ∃ t, e.editLockAt = some t ∧ t < now) →
      requestEditLock db eventId h now
        = (⟨200, "Edit lock acquired", eventId, some (now + EDIT_TIMEOUT_MS)⟩,
           { db with events := updateBy db.events eventId
                                 { e with editingBy := some h,
                                          editLockAt := some (now + EDIT_TIMEOUT_MS) } }))
    ∧ (∀ db eventId h1 h2 t now e,
      lookupBy db.events eventId = some e →
      (e.editingBy = none ∨ ∃ u, e.editLockAt = some u ∧ u < t) →
      t + EDIT_TIMEOUT_MS < now →
      (requestEditLock (requestEditLock db eventId h1 t).2 eventId h2 now).1
        = ⟨200, "Edit lock acquired", eventId, some (now + EDIT_TIMEOUT_MS)⟩) := by
  constructor
  · intro db eventId h now e hl hfree
    exact requestEditLock_acquires db eventId h now e hl hfree
  · intro db eventId h1 h2 t now e hl hfree hexp
    have hstep1 := requestEditLock_acquires db eventId h1 t e hl hfree
    rw [hstep1]
    have hl2 : lookupBy (updateBy db.events eventId
        { e with editingBy := some h1, editLockAt := some (t + EDIT_TIMEOUT_MS) }) eventId
        = some { e with editingBy := some h1, editLockAt := some (t + EDIT_TIMEOUT_MS) } :=
      lookupBy_updateBy_self _ hl
    have hstep2 := requestEditLock_acquires
      { db with events := updateBy db.events eventId
                            { e with editingBy := some h1,
                                     editLockAt := some (t + EDIT_TIMEOUT_MS) } }
      eventId h2 now
      { e with editingBy := some h1, editLockAt := some (t + EDIT_TIMEOUT_MS) }
      hl2 (Or.inr ⟨t + EDIT_TIMEOUT_MS, rfl, hexp⟩)
    rw [hstep2]

/-- Witness for C5 at a concrete store. -/
theorem acquire_free_or_expired_witness :
    requestEditLock
      { events := [("eeeeeeeeeeeeeeeeeeeeeeee", newEvent "Conf" 10)], vouchers := [] }
      "eeeeeeeeeeeeeeeeeeeeeeee" "aaaaaaaaaaaaaaaaaaaaaaaa" 7
      = (⟨200, "Edit lock acquired", "eeeeeeeeeeeeeeeeeeeeeeee", some (7 + EDIT_TIMEOUT_MS)⟩,
         { events := [("eeeeeeeeeeeeeeeeeeeeeeee",
             { newEvent "Conf" 10 with editingBy := some "aaaaaaaaaaaaaaaaaaaaaaaa",
                                       editLockAt := some (7 + EDIT_TIMEOUT_MS) })],
           vouchers := [] }) ∧
    (requestEditLock
      (requestEditLock
        { events := [("eeeeeeeeeeeeeeeeeeeeeeee", newEvent "Conf" 10)], vouchers := [] }
        "eeeeeeeeeeeeeeeeeeeeeeee" "aaaaaaaaaaaaaaaaaaaaaaaa" 0).2
      "eeeeeeeeeeeeeeeeeeeeeeee" "bbbbbbbbbbbbbbbbbbbbbbbb" 300001).1
      = ⟨200, "Edit lock acquired", "eeeeeeeeeeeeeeeeeeeeeeee", some (300001 + EDIT_TIMEOUT_MS)⟩ := by
  constructor
  · have := acquire_free_or_expired.1
      { events := [("eeeeeeeeeeeeeeeeeeeeeeee", newEvent "Conf" 10)], vouchers := [] }
      "eeeeeeeeeeeeeeeeeeeeeeee" "aaaaaaaaaaaaaaaaaaaaaaaa" 7 (newEvent "Conf" 10) rfl
      (Or.inl rfl)
    simpa [updateBy] using this
  · exact acquire_free_or_expired.2
      { events := [("eeeeeeeeeeeeeeeeeeeeeeee", newEvent "Conf" 10)], vouchers := [] }
      "eeeeeeeeeeeeeeeeeeeeeeee" "aaaaaaaaaaaaaaaaaaaaaaaa" "bbbbbbbbbbbbbbbbbbbbbbbb" 0 300001
      (newEvent "Conf" 10) rfl (Or.inl rfl) (by decide)

/-- C6 counterexample: the lock granted by Acquire to the literal caller id
"alice" cannot be extended by "alice" at t = 200s: maintainEditLock throws
the ObjectId BSONError instead of returning the new expiry 500s. -/
theorem extend_alice_throws :
    (requestEditLock demoLockDB demoEvt "alice" 0).1
      = ⟨200, "Edit lock acquired", demoEvt, some 300000⟩ ∧
    maintainEditLock (requestEditLock demoLockDB demoEvt "alice" 0).2 demoEvt "alice" 200000
      = .error bsonErrMsg := by decide

/-- C6 amended: for caller ids in canonical ObjectId form (fixed by the
ObjectId cast), Extend succeeds exactly when the caller is the current
holder and editLockAt is strictly in the future, setting editLockAt to
now + EDIT_TIMEOUT_MS; the alice/bob scenario holds with such ids. -/
theorem extend_iff_holder_unexpired :
    (∀ db eventId h now e t,
      objectIdOfString h = some h →
      lookupBy db.events eventId = some e →
      e.editingBy = some h → e.editLockAt = some t → now < t →
      maintainEditLock db eventId h now
        = .ok (⟨200, "Edit lock extended", eventId, some (now + EDIT_TIMEOUT_MS)⟩,
           { db with events := updateBy db.events eventId
                                 { e with editLockAt := some (now + EDIT_TIMEOUT_MS) } }))
    ∧ (∀ db eventId h now r db1,
      objectIdOfString h = some h →
      maintainEditLock db eventId h now = .ok (r, db1) → r.code = 200 →
      ∃ e, lookupBy db.events eventId = some e ∧ e.editingBy = some h ∧
        ∃ t, e.editLockAt = some t ∧ now < t)
    ∧ ((maintainEditLock (requestEditLock demoLockDB demoEvt aliceHex 0).2 demoEvt
          aliceHex 200000
        = .ok (⟨200, "Edit lock extended", demoEvt, some 500000⟩,
            { events := [(demoEvt, { name := "Conf", maxQuantity := 10, issuedCount := 0,
                                     isActive := true, editingBy := some aliceHex,
                                     editLockAt := some 500000 })], vouchers := [] }))
       ∧ (requestEditLock
            { events := [(demoEvt, { name := "Conf", maxQuantity := 10, issuedCount := 0,
                                     isActive := true, editingBy := some aliceHex,
                                     editLockAt := some 500000 })], vouchers := [] }
            demoEvt bobHex 400000).1
          = ⟨409, "Event is being edited by another user", demoEvt, some 500000⟩) := by
  refine ⟨?_, ?_, ?_⟩
  · intro db eventId h now e t hcanon hl he ht hlt
    unfold maintainEditLock
    rw [hcanon]
    simp only []
    rw [hl]
    simp only []
    rw [if_pos ⟨he, by rw [ht]; simp [dateGt, hlt]⟩]
  · intro db eventId h now r db1 hcanon hm hcode
    unfold maintainEditLock at hm
    rw [hcanon] at hm
    simp only [] at hm
    split at hm
    next e heq =>
      by_cases hc : e.editingBy = some h ∧ dateGt e.editLockAt now = true
      · obtain ⟨he, hgt⟩ := hc
        cases hat : e.editLockAt with
        | none => rw [hat] at hgt; simp [dateGt] at hgt
        | some t =>
          rw [hat] at hgt
          exact ⟨e, heq, he, t, hat, by simpa [dateGt] using hgt⟩
      · rw [if_neg hc] at hm
        by_cases hjs : jsString e.editingBy ≠ h
        · rw [if_pos hjs] at hm
          injection hm with hp
          have hr : r.code = 403 := by
            have hq := congrArg (fun q => q.1.code) hp
            simpa using hq.symm
          omega
        · rw [if_neg hjs] at hm
          injection hm with hp
          have hr : r.code = 409 := by
            have hq := congrArg (fun q => q.1.code) hp
            simpa using hq.symm
          omega
    next heq =>
      injection hm with hp
      have hr : r.code = 404 := by
        have hq := congrArg (fun q => q.1.code) hp
        simpa using hq.symm
      omega
  · exact ⟨by decide, by decide⟩

/-- Witness for the amended C6 theorem at a concrete store. -/
theorem extend_iff_witness :
    ∃ e, lookupBy (requestEditLock demoLockDB demoEvt aliceHex 0).2.events demoEvt = some e ∧
      e.editingBy = some aliceHex ∧ ∃ t, e.editLockAt = some t ∧ 200000 < t :=
  extend_iff_holder_unexpired.2.1 (requestEditLock demoLockDB demoEvt aliceHex 0).2 demoEvt
    aliceHex 200000 ⟨200, "Edit lock extended", demoEvt, some 500000⟩
    { events := [(demoEvt, { name := "Conf", maxQuantity := 10, issuedCount := 0,
                             isActive := true, editingBy := some aliceHex,
                             editLockAt := some 500000 })], vouchers := [] }
    (by decide) (by decide) rfl

/-- C7 counterexample: an absent event and an at-capacity event produce the
same issuance outcome (the one conflated error), so the resolver does not
distinguish NotFound from CapacityExhausted. -/
theorem issue_failure_modes_conflated :
    lookupBy (DB.mk [] []).events demoEvt = none ∧
    (∃ e, lookupBy fullDB.events demoEvt = some e ∧ e.maxQuantity ≤ e.issuedCount) ∧
    (issueVoucherToUser (DB.mk [] []) demoEvt "ann@example.com" (fun _ => "VOUCHER-C") "v1" 0).1
      = .error "Voucher issuance failed: Event not found or no more voucher slots available" ∧
    (issueVoucherToUser fullDB demoEvt "ann@example.com" (fun _ => "VOUCHER-C") "v1" 0).1
      = .error "Voucher issuance failed: Event not found or no more voucher slots available" :=
  ⟨rfl, ⟨_, rfl, by decide⟩, by decide, by decide⟩

/-- C7 amended: when the conditional increment matches no record, the
resolver performs no secondary read: it aborts and returns one fixed error
conflating the absent, inactive and at-capacity cases, leaving the store
unchanged. -/
theorem issue_nomatch_conflated_abort :
    ∀ db eventId issuedTo gen newId now,
      (lookupBy db.events eventId = none ∨
        ∃ e, lookupBy db.events eventId = some e ∧
          (e.isActive = false ∨ e.maxQuantity ≤ e.issuedCount)) →
      issueVoucherToUser db eventId issuedTo gen newId now
        = (.error "Voucher issuance failed: Event not found or no more voucher slots available", db) :=
  fun db eventId issuedTo gen newId now h =>
    issueVoucherToUser_unavailable db eventId issuedTo gen newId now h

/-- Witness for the amended C7 theorem at a concrete store. -/
theorem issue_nomatch_witness :
    issueVoucherToUser (DB.mk [] []) demoEvt "bob@example.com" (fun _ => "VOUCHER-D") "v9" 2
      = (.error "Voucher issuance failed: Event not found or no more voucher slots available",
         DB.mk [] []) :=
  issue_nomatch_conflated_abort _ _ _ _ _ _ (Or.inl rfl)

/-- C8 counterexample: the event exists (held by another user with
editLockAt equal to the current instant), yet Acquire returns the 404
NotFound outcome. -/
theorem acquire_notfound_on_existing_event :
    (∃ e, lookupBy tieDB.events demoEvt = some e) ∧
    (requestEditLock tieDB demoEvt "cccccccccccccccccccccccc" 1000).1
      = ⟨404, "Event not found", demoEvt, none⟩ :=
  ⟨⟨_, rfl⟩, by decide⟩

/-- C8 amended: for an existing event, Acquire returns 404 exactly when a
holder is recorded and the expiry is missing, equals the current instant, or
the recorded holder is the empty string with an unexpired lease; every
outcome is one of the codes 200, 404, 409. -/
theorem acquire_notfound_characterization :
    ∀ db eventId h now e,
      lookupBy db.events eventId = some e →
      (((requestEditLock db eventId h now).1.code = 404 ↔
        (∃ s, e.editingBy = some s ∧
          (e.editLockAt = none ∨ e.editLockAt = some now ∨
            (s = "" ∧ ∃ t, e.editLockAt = some t ∧ now ≤ t))))
      ∧ ((requestEditLock db eventId h now).1.code = 200 ∨
         (requestEditLock db eventId h now).1.code = 404 ∨
         (requestEditLock db eventId h now).1.code = 409)) := by
  intro db eventId h now e hl
  unfold requestEditLock
  rw [hl]
  simp only []
  rcases hby : e.editingBy with _ | s
  · have ha : acquireMatches e now = true := by simp [acquireMatches, hby]
    rw [ha]
    simp [hby]
  · rcases hat : e.editLockAt with _ | t
    · have ha : acquireMatches e now = false := by
        simp [acquireMatches, hby, hat, dateLt]
      have hlo : lockedNow e now = false := by simp [lockedNow, hat]
      rw [ha, hlo]
      simp [hby, hat]
    · rcases Nat.lt_trichotomy t now with hlt | heq | hgt
      · have ha : acquireMatches e now = true := by
          simp [acquireMatches, dateLt, hat, hlt]
        rw [ha]
        have hne : t ≠ now := by omega
        have hnle : ¬ now ≤ t := by omega
        simp [hby, hat, hne, hnle]
      · have ha : acquireMatches e now = false := by
          simp [acquireMatches, hby, dateLt, hat]
          omega
        have hlo : lockedNow e now = false := by
          simp [lockedNow, dateGt, hat]
          omega
        rw [ha, hlo]
        subst heq
        simp [hby, hat]
      · have ha : acquireMatches e now = false := by
          simp [acquireMatches, hby, dateLt, hat]
          omega
        by_cases hs : s = ""
        · have hlo : lockedNow e now = false := by
            simp [lockedNow, jsTruthyStr, hby, hs]
          rw [ha, hlo]
          simp [hby, hat, hs]
          omega
        · have hlo : lockedNow e now = true := by
            simp [lockedNow, jsTruthyStr, dateGt, hby, hat, hs, hgt]
          rw [ha, hlo]
          have hne : t ≠ now := by omega
          by_cases hjs : jsString (some s) = h
          · rw [if_pos hjs]
            simp [hby, hat, hne, hs]
          · rw [if_neg hjs]
            simp [hby, hat, hne, hs]

/-- Witness for the amended C8 theorem at a concrete store. -/
theorem acquire_notfound_witness :
    ((requestEditLock tieDB demoEvt "dddddddddddddddddddddddd" 1000).1.code = 404 ↔
      (∃ s, (some bobHex : Option String) = some s ∧
        ((some 1000 : Option Nat) = none ∨ (some 1000 : Option Nat) = some 1000 ∨
          (s = "" ∧ ∃ t, (some 1000 : Option Nat) = some t ∧ 1000 ≤ t)))) ∧
    ((requestEditLock tieDB demoEvt "dddddddddddddddddddddddd" 1000).1.code = 200 ∨
     (requestEditLock tieDB demoEvt "dddddddddddddddddddddddd" 1000).1.code = 404 ∨
     (requestEditLock tieDB demoEvt "dddddddddddddddddddddddd" 1000).1.code = 409) :=
  acquire_notfound_characterization tieDB demoEvt "dddddddddddddddddddddddd" 1000 _ rfl

/-- C9: MarkUsed on an already-used token returns the already-used outcome
(in both the resolver and the REST route) and leaves the store, hence the
token record with its flags and timestamps, unchanged; on an absent token it
returns the not-found outcome; it succeeds, setting isUsed and updatedAt,
exactly on tokens that exist with isUsed false. -/
theorem mark_used_conditional :
    ∀ db id now,
      isValidObjectId id = true →
      ((∀ v, lookupBy db.vouchers id = some v → v.isUsed = true →
          useVoucher db id now
            = (.error "Voucher usage failed: Voucher has already been used", db)
          ∧ useVoucherRoute db id now = (.failed 400 "VOUCHER_ALREADY_USED", db))
        ∧ (lookupBy db.vouchers id = none →
          useVoucher db id now = (.error "Voucher usage failed: Voucher not found", db)
          ∧ useVoucherRoute db id now = (.failed 404 "VOUCHER_NOT_FOUND", db))
        ∧ (∀ v, lookupBy db.vouchers id = some v → v.isUsed = false →
          useVoucher db id now
            = (.ok { v with isUsed := true, updatedAt := now },
               { db with vouchers := updateBy db.vouchers id
                                       { v with isUsed := true, updatedAt := now } }))
        ∧ (∀ r db1, useVoucher db id now = (.ok r, db1) →
          ∃ v, lookupBy db.vouchers id = some v ∧ v.isUsed = false)) := by
  intro db id now hv
  refine ⟨?_, ?_, ?_, ?_⟩
  · intro v hlk hu
    constructor
    · unfold useVoucher
      rw [hv, hlk]
      simp [hu]
    · unfold useVoucherRoute
      rw [hv, hlk]
      simp [hu]
  · intro hlk
    constructor
    · unfold useVoucher
      rw [hv, hlk]
      simp
    · unfold useVoucherRoute
      rw [hv, hlk]
      simp
  · intro v hlk hu
    unfold useVoucher
    rw [hv, hlk]
    simp [hu]
  · intro r db1 hok
    unfold useVoucher at hok
    split at hok
    next hbad => rw [hv] at hbad; exact absurd hbad (by decide)
    next hgood =>
      split at hok
      next heqn => exact absurd hok (by simp)
      next v heqs =>
        split at hok
        next hu => exact absurd hok (by simp)
        next hu => exact ⟨v, heqs, by simpa using hu⟩

/-- Witness for C9 at a concrete store. -/
theorem mark_used_witness :
    useVoucher
      { events := [], vouchers := [("cccccccccccccccccccccccc",
          { eventId := demoEvt, code := "VOUCHER-W", issuedTo := "ann@example.com",
            isUsed := true, createdAt := 3, updatedAt := 4 })] }
      "cccccccccccccccccccccccc" 9
      = (.error "Voucher usage failed: Voucher has already been used",
         { events := [], vouchers := [("cccccccccccccccccccccccc",
             { eventId := demoEvt, code := "VOUCHER-W", issuedTo := "ann@example.com",
               isUsed := true, createdAt := 3, updatedAt := 4 })] }) :=
  ((mark_used_conditional
      { events := [], vouchers := [("cccccccccccccccccccccccc",
          { eventId := demoEvt, code := "VOUCHER-W", issuedTo := "ann@example.com",
            isUsed := true, createdAt := 3, updatedAt := 4 })] }
      "cccccccccccccccccccccccc" 9 (by decide)).1
    { eventId := demoEvt, code := "VOUCHER-W", issuedTo := "ann@example.com",
      isUsed := true, createdAt := 3, updatedAt := 4 } rfl rfl).1

/-- C10: the opaque-caller-id contract is broken by Release and Extend:
Acquire happily grants the lease to the caller id "alice", but Release and
Extend by that same caller id throw the ObjectId constructor error instead
of returning one of their logical outcomes. -/
theorem release_extend_throw_on_opaque_callerid :
    (requestEditLock demoLockDB demoEvt "alice" 0).1
      = ⟨200, "Edit lock acquired", demoEvt, some 300000⟩ ∧
    (lookupBy (requestEditLock demoLockDB demoEvt "alice" 0).2.events demoEvt).map
        Event.editingBy
      = some (some "alice") ∧
    releaseEditLock (requestEditLock demoLockDB demoEvt "alice" 0).2 demoEvt "alice"
      = .error bsonErrMsg ∧
    maintainEditLock (requestEditLock demoLockDB demoEvt "alice" 0).2 demoEvt "alice" 100
      = .error bsonErrMsg := by decide

end CoordCore
